import Mathlib

/-!
# Verification of `student_analysis.py`

Shallow embedding of the student-marks record keeper. The program keeps
three pieces of data: a subject list, a student list, and a numpy array of
marks, persisted as a JSON document `{subjects, students, marks}`.

The numpy array of marks only ever takes two shapes in this program:
the 1-D empty array `np.array([])` and a 2-D matrix built from a list of
rows by `np.array(list_of_rows)` / `np.vstack`. We embed exactly those.
-/

namespace StudentAnalysis

/-- The marks array. `empty1d` is `np.array([])` (shape `(0,)`);
`matrix rows` is the 2-D array whose rows are `rows`. -/
inductive NDArray where
  | empty1d : NDArray
  | matrix : List (List Int) → NDArray
deriving DecidableEq, Repr

/-- `arr.size`: total number of elements (numpy returns the product of the
shape; for a list of rows that product equals the sum of the row lengths
whenever the array is rectangular, which is the only way a 2-D numpy array
exists). -/
def NDArray.size : NDArray → Nat
  | .empty1d => 0
  | .matrix rows => (rows.map List.length).sum

/-- `arr.tolist()`: the nested-list form written into the JSON document.
`np.array([]).tolist()` is `[]`. -/
def NDArray.tolist : NDArray → List (List Int)
  | .empty1d => []
  | .matrix rows => rows

/-- `np.array(jsonList)` applied to the `marks` field read back from the
JSON file: `np.array([])` is the 1-D empty array, a non-empty list of rows
becomes a 2-D matrix. -/
def npArrayOfJson : List (List Int) → NDArray
  | [] => .empty1d
  | r :: rs => .matrix (r :: rs)

/-- `np.vstack((arr, new))` for the shapes that occur at line 61: the code
only calls it when `arr.size != 0`, i.e. on a matrix whose rows are
non-empty and (by the rectangularity numpy enforces) match `new` in
length; it appends `new` as a final row. -/
def NDArray.vstack : NDArray → List Int → NDArray
  | .empty1d, new => .matrix [new]
  | .matrix rows, new => .matrix (rows ++ [new])

/-- One row of the j-th entries of each row (column j of the table). -/
def columnOf (rows : List (List Int)) (j : Nat) : List Int :=
  rows.map (fun r => r.getD j 0)

/-- The JSON document with fields `subjects`, `students`, `marks`
written by `save_data` (line 42). -/
structure StoredDoc where
  subjects : List String
  students : List String
  marks : List (List Int)
deriving DecidableEq, Repr

/-- The state of `students_data.json` as the try block of
`initialize_data` distinguishes it:
* `absent` — `open` raises `FileNotFoundError`;
* `invalidJson` — `json.load` raises `json.JSONDecodeError`;
* `schemaMismatch` — `json.load` succeeds but the value is not a dict with
  the three expected keys, so the `subjects` lookup raises a `KeyError` or
  `TypeError` (e.g. the file holds `[]`, an empty object, or `null`);
* `validDoc d` — the file parses to the expected document `d`. -/
inductive FileContent where
  | absent : FileContent
  | invalidJson : FileContent
  | schemaMismatch : FileContent
  | validDoc : StoredDoc → FileContent
deriving DecidableEq, Repr

/-- Exceptions that escape the embedded functions. -/
inductive PyError where
  | keyError : PyError
  | ioError : PyError
deriving DecidableEq, Repr

/-- The default subject list of line 34. -/
def defaultSubjects : List String :=
  ["English", "Maths", "Science", "Social", "History"]

/-- `save_data` (lines 40-43): opens the file in write mode (truncating any
prior content) and dumps the full document. `writable` models whether the
underlying storage accepts the write; when it does not, the `IOError`
propagates to the caller (there is no `try` in `save_data`). The prior
file content `fs` is taken as an argument only to show the result does not
depend on it. -/
def save_data (writable : Bool) (subjects students : List String)
    (marks : NDArray) (fs : FileContent) : Except PyError FileContent :=
  if writable then
    .ok (.validDoc ⟨subjects, students, marks.tolist⟩)
  else
    .error .ioError

/-- `initialize_data` (lines 24-38): tries to read and parse the file; on
`FileNotFoundError` or `json.JSONDecodeError` falls back to the default
subjects, empty students, `np.array([])`, and saves that state. A file
that parses as JSON but does not match the schema raises out of the
function (`KeyError`/`TypeError` is not in the `except` clause). Returns
the loaded triple together with the file state after the call. -/
def initialize_data (writable : Bool) (fs : FileContent) :
    Except PyError ((List String × List String × NDArray) × FileContent) :=
  match fs with
  | .validDoc d => .ok ((d.subjects, d.students, npArrayOfJson d.marks), fs)
  | .schemaMismatch => .error .keyError
  | .absent =>
    match save_data writable defaultSubjects [] .empty1d fs with
    | .error e => .error e
    | .ok fsNew => .ok ((defaultSubjects, [], .empty1d), fsNew)
  | .invalidJson =>
    match save_data writable defaultSubjects [] .empty1d fs with
    | .error e => .error e
    | .ok fsNew => .ok ((defaultSubjects, [], .empty1d), fsNew)

/-- One keystroke at a mark prompt: either text that makes `int(...)`
raise `ValueError`, or an integer. -/
inductive Input where
  | notInt : Input
  | int : Int → Input
deriving DecidableEq, Repr

/-- The `while True` retry loop for a single subject (lines 50-59):
consume inputs until one is an integer in `[0, 100]`; return it and the
remaining input stream. `none` models the user never supplying a valid
mark (the Python loop would keep prompting). -/
def read_mark : List Input → Option (Int × List Input)
  | [] => none
  | .notInt :: rest => read_mark rest
  | .int n :: rest =>
    if 0 ≤ n ∧ n ≤ 100 then some (n, rest) else read_mark rest

/-- The `for subject in subjects` loop of lines 49-59: one validated mark
per subject, threading the input stream. -/
def read_marks : List String → List Input → Option (List Int × List Input)
  | [], inputs => some ([], inputs)
  | _ :: subs, inputs =>
    match read_mark inputs with
    | none => none
    | some (m, rest) =>
      match read_marks subs rest with
      | none => none
      | some (row, rest2) => some (m :: row, rest2)

/-- Line 61: `marks = np.vstack((marks, new_marks)) if marks.size else
np.array([new_marks])`. -/
def add_marks_update (marks : NDArray) (new_marks : List Int) : NDArray :=
  if marks.size ≠ 0 then marks.vstack new_marks else .matrix [new_marks]

/-- `add_record` (lines 45-64) without its I/O glue: read a validated row
from the input stream, append the name to the student list and the row to
the marks table. (`save_data` is then triggered on the result; that is
modelled separately.) -/
def add_record (subjects students : List String) (marks : NDArray)
    (name : String) (inputs : List Input) :
    Option ((List String × NDArray) × List Input) :=
  match read_marks subjects inputs with
  | none => none
  | some (new_marks, rest) =>
    some ((students ++ [name], add_marks_update marks new_marks), rest)

/-- The arithmetic mean of a list of integer marks, as `np.mean` computes
it on a non-empty slice: sum divided by length. (On a zero-length slice
numpy yields NaN; theorems about means therefore only cover non-empty
slices.) -/
def npMean (r : List Int) : ℚ :=
  ((r.map (fun v => (v : ℚ))).sum) / r.length

/-- The per-student averages that `display_results` (lines 66-77) prints,
one per `zip(students, marks)` pair: `none` models the early return with
"No data available." when the student list is empty. -/
def display_results_averages (students : List String) (marks : NDArray) :
    Option (List ℚ) :=
  if students = [] then none
  else some ((students.zip marks.tolist).map (fun p => npMean p.2))

/-- `analyze_trend` (lines 79-98): with fewer than two students it prints
"Not enough data to analyze trends." and returns without plotting
(`none`); otherwise it plots one series per subject, that column of the table
(or `[]` when `marks.size` is 0). -/
def analyze_trend (subjects students : List String) (marks : NDArray) :
    Option (List (List Int)) :=
  if students.length < 2 then none
  else
    some ((List.range subjects.length).map
      (fun j => if marks.size ≠ 0 then columnOf marks.tolist j else []))

/-- The per-subject averages that `subject_comparison` (lines 100-123)
renders: `none` models the early return with "No data available for
comparison." when `marks.size == 0`; otherwise `np.mean(marks, axis=0)`,
the column sums divided by the number of rows, one value per column of
the (rectangular) array. -/
def subject_comparison_averages (marks : NDArray) : Option (List ℚ) :=
  if marks.size = 0 then none
  else
    match marks with
    | .empty1d => none
    | .matrix rows =>
      some ((List.range (rows.headD []).length).map
        (fun j => ((columnOf rows j).map (fun v => (v : ℚ))).sum / rows.length))

/-- A program state: the triple threaded through the loop in `main`. -/
structure ProgState where
  subjects : List String
  students : List String
  marks : NDArray
deriving DecidableEq, Repr

/-- States reachable by the program when it created its own data file:
the default state written on first run (lines 33-37), extended by
`add_record` steps whose row was validated by the input loop. -/
inductive Reachable : ProgState → Prop where
  | init : Reachable ⟨defaultSubjects, [], .empty1d⟩
  | step (st : ProgState) (name : String) (new : List Int)
      (inputs rest : List Input)
      (hread : read_marks st.subjects inputs = some (new, rest)) :
      Reachable st →
      Reachable ⟨st.subjects, st.students ++ [name],
        add_marks_update st.marks new⟩

/-! ## Helper lemmas -/

/-- Any mark returned by the single-subject retry loop is in `[0, 100]`. -/
theorem read_mark_sound : ∀ (inputs : List Input) (m : Int) (rest : List Input),
    read_mark inputs = some (m, rest) → 0 ≤ m ∧ m ≤ 100 := by
  intro inputs
  induction inputs with
  | nil => intro m rest h; simp [read_mark] at h
  | cons i tl ih =>
    intro m rest h
    cases i with
    | notInt => exact ih m rest h
    | int n =>
      by_cases hn : 0 ≤ n ∧ n ≤ 100
      · rw [read_mark, if_pos hn] at h
        obtain ⟨rfl, rfl⟩ := Prod.mk.injEq .. ▸ Option.some.injEq .. ▸ h
        exact hn
      · rw [read_mark, if_neg hn] at h
        exact ih m rest h

/-- A row returned by the mark-collection loop has one entry per subject,
each in `[0, 100]`. -/
theorem read_marks_sound : ∀ (subs : List String) (inputs : List Input)
    (row : List Int) (rest : List Input),
    read_marks subs inputs = some (row, rest) →
    row.length = subs.length ∧ ∀ x ∈ row, 0 ≤ x ∧ x ≤ 100 := by
  intro subs
  induction subs with
  | nil =>
    intro inputs row rest h
    rw [read_marks] at h
    simp only [Option.some.injEq, Prod.mk.injEq] at h
    obtain ⟨rfl, rfl⟩ := h
    simp
  | cons s tl ih =>
    intro inputs row rest h
    rw [read_marks] at h
    cases hm : read_mark inputs with
    | none => rw [hm] at h; exact absurd h (by simp)
    | some p =>
      obtain ⟨m, r⟩ := p
      rw [hm] at h
      dsimp only at h
      cases hms : read_marks tl r with
      | none => rw [hms] at h; exact absurd h (by simp)
      | some q =>
        obtain ⟨row2, rest3⟩ := q
        rw [hms] at h
        dsimp only at h
        simp only [Option.some.injEq, Prod.mk.injEq] at h
        obtain ⟨rfl, rfl⟩ := h
        obtain ⟨hq1, hq2⟩ := ih r row2 rest3 hms
        refine ⟨by simp [hq1], ?_⟩
        intro x hx
        rcases List.mem_cons.mp hx with rfl | hx2
        · exact read_mark_sound inputs x r hm
        · exact hq2 x hx2

/-! ## Claim theorems -/

/-- Claim C4: loading when the persisted file is missing returns exactly
the default 5-subject list, zero students, an empty marks table, and
leaves behind a persisted file encoding that default state. -/
theorem initialize_data_absent_default :
    initialize_data true .absent =
      .ok ((defaultSubjects, [], .empty1d),
           .validDoc ⟨defaultSubjects, [], []⟩) := rfl

/-- Claim C3, counterexample: a persisted file that is valid JSON but not
the expected structured format (e.g. it holds `[]`) makes
`initialize_data` raise to its caller instead of falling back to the
defaults — `KeyError`/`TypeError` is not in the except clause. -/
theorem initialize_data_schemaMismatch_raises :
    initialize_data true FileContent.schemaMismatch =
      .error PyError.keyError := rfl

/-- Claim C3, amended: when the persisted file is absent or fails JSON
parsing, `initialize_data` does not raise: it returns the default
subjects, no students, an empty marks table, and persists that default
state before returning. -/
theorem initialize_data_fallback (fs : FileContent)
    (h : fs = .absent ∨ fs = .invalidJson) :
    initialize_data true fs =
      .ok ((defaultSubjects, [], .empty1d),
           .validDoc ⟨defaultSubjects, [], []⟩) := by
  rcases h with rfl | rfl <;> rfl

/-- Witness for C3 at the malformed-JSON file state. -/
theorem initialize_data_fallback_witness :
    initialize_data true .invalidJson =
      .ok ((defaultSubjects, [], .empty1d),
           .validDoc ⟨defaultSubjects, [], []⟩) :=
  initialize_data_fallback .invalidJson (Or.inr rfl)

/-- Claim C9: with fewer than two students `analyze_trend` reports
"Not enough data to analyze trends." and returns without rendering any
chart, regardless of the marks table. -/
theorem analyze_trend_requires_two (subjects students : List String)
    (marks : NDArray) (h : students.length < 2) :
    analyze_trend subjects students marks = none := by
  simp [analyze_trend, h]

/-- Witness for C9: one student, non-trivial marks table. -/
theorem analyze_trend_requires_two_witness :
    analyze_trend defaultSubjects ["Alice"]
      (NDArray.matrix [[90, 80, 70, 60, 50]]) = none :=
  analyze_trend_requires_two defaultSubjects ["Alice"]
    (NDArray.matrix [[90, 80, 70, 60, 50]]) (by decide)

/-- Claim C8: `save_data` raises an IOError exactly when the storage is
unwritable (never swallowed), and a successful save writes the full
document, independent of whatever the file held before. -/
theorem save_data_spec (w : Bool) (s st : List String) (m : NDArray)
    (fs fs2 : FileContent) :
    (save_data w s st m fs = .error .ioError ↔ w = false) ∧
    (w = true → save_data w s st m fs = .ok (.validDoc ⟨s, st, m.tolist⟩)) ∧
    save_data w s st m fs = save_data w s st m fs2 := by
  cases w <;> simp [save_data]

/-- Witness for C8: unwritable storage raises, writable storage writes
the whole document. -/
theorem save_data_spec_witness :
    save_data false defaultSubjects [] .empty1d .absent = .error .ioError ∧
    save_data true defaultSubjects [] .empty1d .absent =
      .ok (.validDoc ⟨defaultSubjects, [], []⟩) :=
  ⟨(save_data_spec false defaultSubjects [] .empty1d .absent .absent).1.mpr rfl,
   (save_data_spec true defaultSubjects [] .empty1d .absent .absent).2.1 rfl⟩

/-- Claim C5: invalid candidate marks (out of range or non-integer) are
rejected and re-requested by the retry loop, and any row the loop accepts
has exactly one integer in `[0, 100]` per subject. -/
theorem add_record_validation (v : Int) (rest : List Input)
    (subjects : List String) (inputs rest2 : List Input) (row : List Int)
    (hv : v < 0 ∨ 100 < v)
    (hread : read_marks subjects inputs = some (row, rest2)) :
    read_mark (.int v :: rest) = read_mark rest ∧
    read_mark (.notInt :: rest) = read_mark rest ∧
    row.length = subjects.length ∧ ∀ x ∈ row, 0 ≤ x ∧ x ≤ 100 := by
  refine ⟨?_, rfl, read_marks_sound subjects inputs row rest2 hread⟩
  rw [read_mark, if_neg]
  rintro ⟨h1, h2⟩
  rcases hv with h | h <;> omega

/-- Witness for C5: the out-of-range candidate -1 is skipped, a non-integer
is skipped, and the accepted row [50] is one in-range mark per subject. -/
theorem add_record_validation_witness :
    read_mark [Input.int (-1), Input.int 50] = read_mark [Input.int 50] ∧
    read_mark [Input.notInt, Input.int 50] = read_mark [Input.int 50] ∧
    [(50 : Int)].length = ["English"].length ∧
    ∀ x ∈ [(50 : Int)], 0 ≤ x ∧ x ≤ 100 :=
  add_record_validation (-1) [Input.int 50] ["English"] [Input.int 50] [] [50]
    (Or.inl (by decide)) (by decide)

/-- A valid in-memory triple as claim C1 describes it: one marks row per
student, one entry per subject in each row, every value in `[0, 100]`. -/
def validTriple (subjects students : List String) (marks : NDArray) : Prop :=
  marks.tolist.length = students.length ∧
  ∀ r ∈ marks.tolist,
    r.length = subjects.length ∧ ∀ v ∈ r, 0 ≤ v ∧ v ≤ 100

instance (subjects students : List String) (marks : NDArray) :
    Decidable (validTriple subjects students marks) := by
  unfold validTriple; infer_instance

/-- Claim C1: for a valid triple, `save_data` followed by
`initialize_data` reproduces the same subjects, students, and marks
values (the loaded array holds exactly the saved rows). -/
theorem save_load_roundtrip (subjects students : List String)
    (marks : NDArray) (fs : FileContent)
    (hvalid : validTriple subjects students marks) :
    ∃ fs2, save_data true subjects students marks fs = .ok fs2 ∧
      ∃ marksLoaded,
        initialize_data true fs2 = .ok ((subjects, students, marksLoaded), fs2) ∧
        marksLoaded.tolist = marks.tolist := by
  refine ⟨.validDoc ⟨subjects, students, marks.tolist⟩, rfl,
    npArrayOfJson marks.tolist, rfl, ?_⟩
  cases marks with
  | empty1d => rfl
  | matrix rows => cases rows with
    | nil => rfl
    | cons r rs => rfl

/-- Witness for C1 at a concrete one-student dataset. -/
theorem save_load_roundtrip_witness :
    ∃ fs2, save_data true defaultSubjects ["Alice"]
        (NDArray.matrix [[70, 80, 90, 60, 100]]) .absent = .ok fs2 ∧
      ∃ marksLoaded,
        initialize_data true fs2 =
          .ok ((defaultSubjects, ["Alice"], marksLoaded), fs2) ∧
        marksLoaded.tolist = (NDArray.matrix [[70, 80, 90, 60, 100]]).tolist :=
  save_load_roundtrip defaultSubjects ["Alice"]
    (NDArray.matrix [[70, 80, 90, 60, 100]]) .absent (by decide)

/-- Claim C2, counterexample: a 2-row, 0-column table (possible exactly
when there are zero subjects) has numpy size 0, so line 61 takes the
empty-table branch and returns a single-row table instead of a table with
2 + 1 rows. -/
theorem add_record_rowcount_cex :
    ¬ (add_marks_update (NDArray.matrix [[], []]) []).tolist.length =
        (NDArray.matrix [[], []]).tolist.length + 1 := by decide

/-- Claim C2, amended: under the extra proviso that the table is empty or
has at least one column, `add_record` with a valid row appends exactly
that row: the result has the old rows unchanged followed by the new row
(so R+1 rows, a 1×C table from an empty table), and stays rectangular
with row length `len(subjects)`. -/
theorem add_record_shape (subjects : List String) (marks : NDArray)
    (new : List Int)
    (hrect : ∀ r ∈ marks.tolist, r.length = subjects.length)
    (hnew : new.length = subjects.length)
    (hrange : ∀ v ∈ new, 0 ≤ v ∧ v ≤ 100)
    (hdeg : marks.tolist = [] ∨ 1 ≤ subjects.length) :
    (add_marks_update marks new).tolist = marks.tolist ++ [new] ∧
    ∀ r ∈ (add_marks_update marks new).tolist, r.length = subjects.length := by
  have hmain : (add_marks_update marks new).tolist = marks.tolist ++ [new] := by
    cases marks with
    | empty1d => simp [add_marks_update, NDArray.size, NDArray.tolist]
    | matrix rows =>
      cases rows with
      | nil => simp [add_marks_update, NDArray.size, NDArray.tolist]
      | cons r rs =>
        have hr : r.length = subjects.length :=
          hrect r (by simp [NDArray.tolist])
        have hC : 1 ≤ subjects.length := by
          rcases hdeg with h | h
          · simp [NDArray.tolist] at h
          · exact h
        have hsz : (NDArray.matrix (r :: rs)).size ≠ 0 := by
          simp only [NDArray.size, List.map_cons, List.sum_cons]
          omega
        simp [add_marks_update, hsz, NDArray.vstack, NDArray.tolist]
  refine ⟨hmain, ?_⟩
  intro r hr
  rw [hmain] at hr
  rcases List.mem_append.mp hr with h | h
  · exact hrect r h
  · rw [List.mem_singleton.mp h]
    exact hnew

/-- Witness for C2 (amended) at a concrete one-row table. -/
theorem add_record_shape_witness :
    (add_marks_update (NDArray.matrix [[1, 2, 3, 4, 5]])
        [10, 20, 30, 40, 50]).tolist =
      (NDArray.matrix [[1, 2, 3, 4, 5]]).tolist ++ [[10, 20, 30, 40, 50]] ∧
    ∀ r ∈ (add_marks_update (NDArray.matrix [[1, 2, 3, 4, 5]])
        [10, 20, 30, 40, 50]).tolist, r.length = defaultSubjects.length :=
  add_record_shape defaultSubjects (NDArray.matrix [[1, 2, 3, 4, 5]])
    [10, 20, 30, 40, 50] (by decide) (by decide) (by decide)
    (Or.inr (by decide))

/-- Claim C6: on a non-empty marks table, `subject_comparison` computes
one column mean per subject (the arithmetic mean over students); on the
concrete table `[[100,100],[0,0]]` it yields `[50, 50]`; with zero rows it
signals no data instead of computing a mean. -/
theorem subject_comparison_spec (subjects : List String)
    (rows : List (List Int))
    (hrect : ∀ r ∈ rows, r.length = subjects.length)
    (hrows : rows ≠ []) (hsubs : subjects ≠ []) :
    (∃ avgs, subject_comparison_averages (NDArray.matrix rows) = some avgs ∧
      avgs.length = subjects.length ∧
      ∀ j, j < subjects.length → avgs.getD j 0 = npMean (columnOf rows j)) ∧
    subject_comparison_averages (NDArray.matrix [[100, 100], [0, 0]]) =
      some [50, 50] ∧
    subject_comparison_averages NDArray.empty1d = none ∧
    subject_comparison_averages (NDArray.matrix []) = none := by
  refine ⟨?_, by norm_num [subject_comparison_averages, NDArray.size,
    columnOf, List.range_succ], rfl, rfl⟩
  obtain ⟨r0, rs0, rfl⟩ : ∃ a l, rows = a :: l := by
    cases rows with
    | nil => exact absurd rfl hrows
    | cons a l => exact ⟨a, l, rfl⟩
  have hr0 : r0.length = subjects.length := hrect r0 (by simp)
  have hC : 1 ≤ subjects.length := List.length_pos.mpr hsubs
  have hsz : ¬ (NDArray.matrix (r0 :: rs0)).size = 0 := by
    simp only [NDArray.size, List.map_cons, List.sum_cons]
    omega
  refine ⟨(List.range subjects.length).map
    (fun j => ((columnOf (r0 :: rs0) j).map (fun v => (v : ℚ))).sum /
      (r0 :: rs0).length), ?_, by simp, ?_⟩
  · rw [subject_comparison_averages, if_neg hsz]
    rw [show (r0 :: rs0).headD [] = r0 from rfl, hr0]
  · intro j hj
    have hjlt : j < ((List.range subjects.length).map
        (fun j => ((columnOf (r0 :: rs0) j).map (fun v => (v : ℚ))).sum /
          (r0 :: rs0).length)).length := by simpa using hj
    rw [List.getD_eq_getElem _ _ hjlt]
    simp only [List.getElem_map, List.getElem_range]
    rw [npMean]
    have : (columnOf (r0 :: rs0) j).length = (r0 :: rs0).length := by
      simp [columnOf]
    rw [this]

/-- Witness for C6 at a concrete three-student dataset. -/
theorem subject_comparison_spec_witness :
    (∃ avgs, subject_comparison_averages
        (NDArray.matrix [[10, 20], [30, 40], [50, 60]]) = some avgs ∧
      avgs.length = (["English", "Maths"] : List String).length ∧
      ∀ j, j < (["English", "Maths"] : List String).length →
        avgs.getD j 0 = npMean (columnOf [[10, 20], [30, 40], [50, 60]] j)) ∧
    subject_comparison_averages (NDArray.matrix [[100, 100], [0, 0]]) =
      some [50, 50] ∧
    subject_comparison_averages NDArray.empty1d = none ∧
    subject_comparison_averages (NDArray.matrix []) = none :=
  subject_comparison_spec ["English", "Maths"] [[10, 20], [30, 40], [50, 60]]
    (by decide) (by decide) (by decide)

/-- Claim C7: `display_results` prints one per-student average per row of
the marks table, the arithmetic mean across that row; on the one-row table
`[80, 90, 70, 60, 100]` it is `80`; with an empty student list it signals
no data and computes no average. -/
theorem display_results_spec (students : List String)
    (rows : List (List Int)) (m2 : NDArray)
    (hlen : rows.length = students.length)
    (hst : students ≠ [])
    (hrows : ∀ r ∈ rows, r ≠ []) :
    (∃ avgs, display_results_averages students (NDArray.matrix rows) =
        some avgs ∧
      avgs.length = students.length ∧
      ∀ i, i < students.length → avgs.getD i 0 = npMean (rows.getD i [])) ∧
    display_results_averages ["Alice"] (NDArray.matrix [[80, 90, 70, 60, 100]]) =
      some [80] ∧
    display_results_averages [] m2 = none := by
  refine ⟨?_, by norm_num [display_results_averages, NDArray.tolist, npMean],
    by simp [display_results_averages]⟩
  refine ⟨(students.zip rows).map (fun p => npMean p.2), ?_, ?_, ?_⟩
  · rw [display_results_averages, if_neg hst]
    rfl
  · simp [List.length_zip, hlen]
  · intro i hi
    have hiz : i < ((students.zip rows).map (fun p => npMean p.2)).length := by
      simp [List.length_zip, hlen]
      omega
    rw [List.getD_eq_getElem _ _ hiz]
    have hir : i < rows.length := by omega
    rw [List.getD_eq_getElem _ _ hir]
    simp [List.getElem_zip]

/-- Witness for C7 at a concrete two-student dataset. -/
theorem display_results_spec_witness :
    (∃ avgs, display_results_averages ["Ann", "Bob"]
        (NDArray.matrix [[10, 20], [30, 40]]) = some avgs ∧
      avgs.length = (["Ann", "Bob"] : List String).length ∧
      ∀ i, i < (["Ann", "Bob"] : List String).length →
        avgs.getD i 0 = npMean ([[10, 20], [30, 40]].getD i [])) ∧
    display_results_averages ["Alice"] (NDArray.matrix [[80, 90, 70, 60, 100]]) =
      some [80] ∧
    display_results_averages [] NDArray.empty1d = none :=
  display_results_spec ["Ann", "Bob"] [[10, 20], [30, 40]] NDArray.empty1d
    (by decide) (by decide) (by decide)

/-- Every reachable state keeps the default subjects and a marks table
that is either the 1-D empty array with no students, or a non-empty
rectangular matrix with one row per student. -/
theorem reachable_state_wf (st : ProgState) (h : Reachable st) :
    st.subjects = defaultSubjects ∧
    ((st.marks = .empty1d ∧ st.students = []) ∨
      (∃ rows, st.marks = .matrix rows ∧ rows ≠ [] ∧
        rows.length = st.students.length ∧
        ∀ r ∈ rows, r.length = st.subjects.length)) := by
  induction h with
  | init => exact ⟨rfl, Or.inl ⟨rfl, rfl⟩⟩
  | step st name new inputs rest hread hr ih =>
    obtain ⟨hsub, hinv⟩ := ih
    have hlen : new.length = st.subjects.length :=
      (read_marks_sound st.subjects inputs new rest hread).1
    refine ⟨hsub, Or.inr ?_⟩
    rcases hinv with ⟨hm, hstu⟩ | ⟨rows, hm, hne, hrl, hrect⟩
    · refine ⟨[new], ?_, by simp, ?_, ?_⟩
      · show add_marks_update st.marks new = .matrix [new]
        rw [hm]
        rfl
      · show ([new]).length = (st.students ++ [name]).length
        simp [hstu]
      · intro r hr2
        rw [List.mem_singleton.mp hr2]
        exact hlen
    · obtain ⟨r0, rs0, rfl⟩ : ∃ a l, rows = a :: l := by
        cases rows with
        | nil => exact absurd rfl hne
        | cons a l => exact ⟨a, l, rfl⟩
      have hr0 : r0.length = st.subjects.length := hrect r0 (by simp)
      have hC : 1 ≤ st.subjects.length := by rw [hsub]; decide
      have hsz : (NDArray.matrix (r0 :: rs0)).size ≠ 0 := by
        simp only [NDArray.size, List.map_cons, List.sum_cons]
        omega
      refine ⟨(r0 :: rs0) ++ [new], ?_, by simp, ?_, ?_⟩
      · show add_marks_update st.marks new = .matrix ((r0 :: rs0) ++ [new])
        rw [hm, add_marks_update, if_pos hsz]
        rfl
      · show ((r0 :: rs0) ++ [new]).length = (st.students ++ [name]).length
        simp only [List.length_append, List.length_cons, List.length_nil] at hrl ⊢
        omega
      · intro r hr2
        rcases List.mem_append.mp hr2 with h2 | h2
        · exact hrect r h2
        · rw [List.mem_singleton.mp h2]
          exact hlen

/-- Claim C10: in every reachable program state the marks table is the
1-D empty array exactly when there are no students, and otherwise a
rectangular matrix with one row per student and one column per subject;
the element count is zero exactly when no rows exist, so the empty-table
branch at line 61 fires exactly on row-less tables. -/
theorem marks_representation_invariant (st : ProgState) (h : Reachable st) :
    (st.marks = NDArray.empty1d ↔ st.students = []) ∧
    (st.marks = NDArray.empty1d ∨
      ∃ rows, st.marks = NDArray.matrix rows ∧
        rows.length = st.students.length ∧
        ∀ r ∈ rows, r.length = st.subjects.length) ∧
    (st.marks.size = 0 ↔ st.marks.tolist = []) := by
  obtain ⟨hsub, hinv⟩ := reachable_state_wf st h
  rcases hinv with ⟨hm, hstu⟩ | ⟨rows, hm, hne, hrl, hrect⟩
  · rw [hm, hstu]
    exact ⟨by simp, Or.inl rfl, by simp [NDArray.size, NDArray.tolist]⟩
  · obtain ⟨r0, rs0, rfl⟩ : ∃ a l, rows = a :: l := by
      cases rows with
      | nil => exact absurd rfl hne
      | cons a l => exact ⟨a, l, rfl⟩
    have hr0 : r0.length = st.subjects.length := hrect r0 (by simp)
    have hC : 1 ≤ st.subjects.length := by rw [hsub]; decide
    refine ⟨⟨?_, ?_⟩, Or.inr ⟨r0 :: rs0, hm, hrl, hrect⟩, ?_⟩
    · intro he
      rw [hm] at he
      exact absurd he (by simp)
    · intro he
      rw [he] at hrl
      simp at hrl
    · rw [hm]
      constructor
      · intro hsz
        simp only [NDArray.size, List.map_cons, List.sum_cons] at hsz
        omega
      · intro ht
        simp [NDArray.tolist] at ht

/-- Witness for C10 at the initial reachable state. -/
theorem marks_representation_invariant_witness :
    ((ProgState.mk defaultSubjects [] NDArray.empty1d).marks =
        NDArray.empty1d ↔
      (ProgState.mk defaultSubjects [] NDArray.empty1d).students = []) ∧
    ((ProgState.mk defaultSubjects [] NDArray.empty1d).marks =
        NDArray.empty1d ∨
      ∃ rows, (ProgState.mk defaultSubjects [] NDArray.empty1d).marks =
          NDArray.matrix rows ∧
        rows.length =
          (ProgState.mk defaultSubjects [] NDArray.empty1d).students.length ∧
        ∀ r ∈ rows, r.length =
          (ProgState.mk defaultSubjects [] NDArray.empty1d).subjects.length) ∧
    ((ProgState.mk defaultSubjects [] NDArray.empty1d).marks.size = 0 ↔
      (ProgState.mk defaultSubjects [] NDArray.empty1d).marks.tolist = []) :=
  marks_representation_invariant ⟨defaultSubjects, [], NDArray.empty1d⟩
    Reachable.init

end StudentAnalysis
